import Mathlib

/-!
Shallow embedding of the state core of `patch-hub` (files `src/app.rs` and
`src/app/config.rs`) and proofs about its bounded-cursor states, the
action-consolidation protocol, the reply workflow, and the layered
configuration resolver.

Machine integers (`u32`, `usize`) are modelled as `Nat`; wrapping unsigned
subtraction is made explicit (`% USIZE`) at the one place the source relies
on it.  Fallible operations return `Option`/`Except`; a Rust `unwrap` panic
is modelled as `Option.none`.  External collaborators (filesystem, lore API,
subprocesses, serde) are passed in as explicit oracles.
-/

/-- Model of the external `Patch` message identifier (`message_id().href`). -/
structure MessageID where
  href : String
  deriving DecidableEq

/-- Model of the external `Patch` type; equality is by message identifier,
matching the spec's "equality is by that identifier". -/
structure Patch where
  message_id : MessageID
  deriving DecidableEq

instance : BEq Patch := ⟨fun a b => decide (a = b)⟩

instance : LawfulBEq Patch where
  eq_of_beq h := by simpa [BEq.beq] using h
  rfl := by simp [BEq.beq]

/-- `enum PatchsetAction` from `src/app.rs`. -/
inductive PatchsetAction where
  | Bookmark
  | ReplyWithReviewedBy
  deriving DecidableEq

instance : BEq PatchsetAction := ⟨fun a b => decide (a = b)⟩

instance : LawfulBEq PatchsetAction where
  eq_of_beq h := by simpa [BEq.beq] using h
  rfl := by simp [BEq.beq]

/-- `HashMap::get`, on the association-list model of a `HashMap`. -/
def hmGet {α β : Type} [BEq α] (m : List (α × β)) (k : α) : Option β :=
  List.lookup k m

/-- `HashMap::insert`, on the association-list model of a `HashMap`:
replaces the value at an existing key, otherwise adds the entry. -/
def hmInsert {α β : Type} [BEq α] (m : List (α × β)) (k : α) (v : β) :
    List (α × β) :=
  if m.any (fun p => p.1 == k) then
    m.map (fun p => if p.1 == k then (k, v) else p)
  else
    (k, v) :: m

/-- `struct BookmarkedPatchsetsState` from `src/app.rs`. -/
structure BookmarkedPatchsetsState where
  bookmarked_patchsets : List Patch
  patchset_index : Nat
  deriving DecidableEq

namespace BookmarkedPatchsetsState

/-- `BookmarkedPatchsetsState::select_below_patchset`. -/
def select_below_patchset (s : BookmarkedPatchsetsState) : BookmarkedPatchsetsState :=
  if s.patchset_index + 1 < s.bookmarked_patchsets.length then
    { s with patchset_index := s.patchset_index + 1 }
  else
    s

/-- `BookmarkedPatchsetsState::select_above_patchset`
(`u32::saturating_sub` is `Nat` subtraction). -/
def select_above_patchset (s : BookmarkedPatchsetsState) : BookmarkedPatchsetsState :=
  { s with patchset_index := s.patchset_index - 1 }

/-- `BookmarkedPatchsetsState::get_selected_patchset`; the `unwrap` panic on
an out-of-bounds cursor is modelled as `none`. -/
def get_selected_patchset (s : BookmarkedPatchsetsState) : Option Patch :=
  s.bookmarked_patchsets.get? s.patchset_index

/-- `BookmarkedPatchsetsState::bookmark_selected_patch`. -/
def bookmark_selected_patch (s : BookmarkedPatchsetsState) (patch_to_bookmark : Patch) :
    BookmarkedPatchsetsState :=
  if s.bookmarked_patchsets.contains patch_to_bookmark then
    s
  else
    { s with bookmarked_patchsets := s.bookmarked_patchsets ++ [patch_to_bookmark] }

/-- `BookmarkedPatchsetsState::unbookmark_selected_patch`. -/
def unbookmark_selected_patch (s : BookmarkedPatchsetsState) (patch_to_unbookmark : Patch) :
    BookmarkedPatchsetsState :=
  match s.bookmarked_patchsets.findIdx? (fun r => r == patch_to_unbookmark) with
  | some index => { s with bookmarked_patchsets := s.bookmarked_patchsets.eraseIdx index }
  | none => s

end BookmarkedPatchsetsState

/-- `struct LatestPatchsetsState` from `src/app.rs`.  The `lore_session`
field is modelled by the only data of it these operations read: the ordered
list of representative patch message-ids fetched so far
(`get_representative_patches_ids`). -/
structure LatestPatchsetsState where
  representative_patches_ids : List String
  target_list : String
  page_number : Nat
  patchset_index : Nat
  page_size : Nat
  deriving DecidableEq

namespace LatestPatchsetsState

/-- `LatestPatchsetsState::new`. -/
def new (target_list : String) (page_size : Nat) : LatestPatchsetsState :=
  { representative_patches_ids := []
    target_list := target_list
    page_number := 1
    patchset_index := 0
    page_size := page_size }

/-- `LatestPatchsetsState::select_below_patchset`. -/
def select_below_patchset (s : LatestPatchsetsState) : LatestPatchsetsState :=
  if s.patchset_index + 1 < s.representative_patches_ids.length then
    { s with patchset_index := s.patchset_index + 1 }
  else
    s

/-- `LatestPatchsetsState::select_above_patchset`. -/
def select_above_patchset (s : LatestPatchsetsState) : LatestPatchsetsState :=
  if s.patchset_index = 0 then
    s
  else if s.patchset_index - 1 ≥ s.page_size * (s.page_number - 1) then
    { s with patchset_index := s.patchset_index - 1 }
  else
    s

/-- `LatestPatchsetsState::increment_page`. -/
def increment_page (s : LatestPatchsetsState) : LatestPatchsetsState :=
  let patchsets_processed := s.representative_patches_ids.length
  if s.page_size * s.page_number > patchsets_processed then
    s
  else
    { s with
      page_number := s.page_number + 1
      patchset_index := s.page_size * (s.page_number + 1 - 1) }

/-- `LatestPatchsetsState::decrement_page`. -/
def decrement_page (s : LatestPatchsetsState) : LatestPatchsetsState :=
  if s.page_number = 1 then
    s
  else
    { s with
      page_number := s.page_number - 1
      patchset_index := s.page_size * (s.page_number - 1 - 1) }

end LatestPatchsetsState

/-- `enum CurrentScreen` from `src/app.rs`. -/
inductive CurrentScreen where
  | MailingListSelection
  | BookmarkedPatchsets
  | LatestPatchsets
  | PatchsetDetails
  deriving DecidableEq

/-- `struct PatchsetDetailsAndActionsState` from `src/app.rs`; the
`HashMap<PatchsetAction, bool>` is modelled as an association list. -/
structure PatchsetDetailsAndActionsState where
  representative_patch : Patch
  patches : List String
  preview_index : Nat
  preview_scroll_offset : Nat
  patchset_actions : List (PatchsetAction × Bool)
  last_screen : CurrentScreen
  deriving DecidableEq

/-- The action-flags map built by `App::init_patchset_details_and_actions_state`:
`HashMap::from([(Bookmark, is_patchset_bookmarked), (ReplyWithReviewedBy, false)])`. -/
def initial_patchset_actions (is_patchset_bookmarked : Bool) :
    List (PatchsetAction × Bool) :=
  [(PatchsetAction.Bookmark, is_patchset_bookmarked),
   (PatchsetAction.ReplyWithReviewedBy, false)]

/-- The map update performed by
`PatchsetDetailsAndActionsState::toggle_action`: read the current value
(`get(..).unwrap()`, panic modelled as `none`), then `insert` its negation. -/
def toggle_action_flags (m : List (PatchsetAction × Bool)) (patchset_action : PatchsetAction) :
    Option (List (PatchsetAction × Bool)) :=
  match hmGet m patchset_action with
  | none => none
  | some current_value => some (hmInsert m patchset_action (!current_value))

namespace PatchsetDetailsAndActionsState

/-- `PatchsetDetailsAndActionsState::toggle_action`. -/
def toggle_action (s : PatchsetDetailsAndActionsState) (patchset_action : PatchsetAction) :
    Option PatchsetDetailsAndActionsState :=
  match toggle_action_flags s.patchset_actions patchset_action with
  | none => none
  | some m => some { s with patchset_actions := m }

/-- `PatchsetDetailsAndActionsState::actions_require_user_io`
(`get(..).unwrap()`, panic modelled as `none`). -/
def actions_require_user_io (s : PatchsetDetailsAndActionsState) : Option Bool :=
  hmGet s.patchset_actions PatchsetAction.ReplyWithReviewedBy

end PatchsetDetailsAndActionsState

/-- Environment oracle for the reply workflow: the resolved git identity
(`lore_session::get_git_signature`) and the outcome of
`lore_session::prepare_reply_patchset_with_reviewed_by` — on success, one
exit status (`true` = exited successfully) per prepared `git send-email`
command, in order. -/
structure ReplyEnv where
  git_user_name : String
  git_user_email : String
  prepare_result : Except String (List Bool)

/-- Observable steps of the reply workflow, for stating that operations are
or are not attempted. -/
inductive REvent where
  | prepared
  | executed (index : Nat)
  deriving DecidableEq

/-- The indexes pushed by the execution loop of
`reply_patchset_with_reviewed_by`: the zero-based index of every command
whose exit status is success. -/
def successful_indexes (exit_statuses : List Bool) : List Nat :=
  ((exit_statuses.enum).filter (fun p => p.2)).map (fun p => p.1)

/-- `PatchsetDetailsAndActionsState::reply_patchset_with_reviewed_by`,
with the external collaborators (git identity, command preparation, command
execution) supplied by `env`; also returns the trace of workflow steps
actually taken. -/
def reply_patchset_with_reviewed_by (_s : PatchsetDetailsAndActionsState)
    (_target_list : String) (env : ReplyEnv) :
    Except String (List Nat) × List REvent :=
  if env.git_user_name = "" || env.git_user_email = "" then
    (Except.ok [], [])
  else
    match env.prepare_result with
    | Except.error e => (Except.error e, [REvent.prepared])
    | Except.ok exit_statuses =>
        (Except.ok (successful_indexes exit_statuses),
         REvent.prepared :: (exit_statuses.enum).map (fun p => REvent.executed p.1))

/-- `struct MailingList` (external type), compared by name. -/
structure MailingList where
  name : String
  deriving DecidableEq

/-- `struct MailingListSelectionState` from `src/app.rs`. -/
structure MailingListSelectionState where
  mailing_lists : List MailingList
  target_list : String
  possible_mailing_lists : List MailingList
  highlighted_list_index : Nat
  mailing_lists_path : String
  deriving DecidableEq

/-- Modulus of the 64-bit `usize` arithmetic of the target platform. -/
def USIZE : Nat := 2 ^ 64

/-- `MailingListSelectionState::has_valid_target_list`.  The source compares
`list_index <= list_length - 1` where `list_length : usize` may be `0`; the
release-profile wrapping subtraction `list_length - 1` is modelled explicitly
as `(list_length + (USIZE - 1)) % USIZE`. -/
def has_valid_target_list (s : MailingListSelectionState) : Bool :=
  let list_length := s.possible_mailing_lists.length
  let list_index := s.highlighted_list_index
  decide (list_index ≤ (list_length + (USIZE - 1)) % USIZE)

/-- `struct App` from `src/app.rs`, restricted to the fields read or written
by `consolidate_patchset_actions` (the current screen, the mailing-list
selection sub-state, the latest-patchsets sub-state and the config paths do
not participate; the persistence paths are absorbed into the oracles). -/
structure App where
  bookmarked_patchsets_state : BookmarkedPatchsetsState
  patchset_details_and_actions_state : Option PatchsetDetailsAndActionsState
  reviewed_patchsets : List (String × List Nat)
  deriving DecidableEq

/-- Environment oracle for `App::consolidate_patchset_actions`: the outcomes
of `lore_session::save_bookmarked_patchsets` and
`lore_session::save_reviewed_patchsets`, plus the reply-workflow
environment. -/
structure ConsolidateEnv where
  save_bookmarked_result : Except String Unit
  reply_env : ReplyEnv
  save_reviewed_result : Except String Unit

/-- Observable steps of `consolidate_patchset_actions`, in execution order,
for stating ordering and abort properties. -/
inductive Event where
  | bookmarkApplied
  | bookmarkSaveAttempted
  | replyAttempted
  | reviewedSaveAttempted
  deriving DecidableEq

/-- The reply block of `App::consolidate_patchset_actions`
(`src/app.rs` lines 477–502), acting on the details sub-state and the
reviewed-patchsets map.  Returns the operation outcome, the updated
sub-state and map (also on error, matching the in-place mutations), and the
trace of steps taken; `none` models an `unwrap` panic. -/
def reply_step (details : PatchsetDetailsAndActionsState)
    (reviewed_patchsets : List (String × List Nat)) (env : ConsolidateEnv) :
    Option (Except String Unit × PatchsetDetailsAndActionsState ×
            List (String × List Nat) × List Event) :=
  match hmGet details.patchset_actions PatchsetAction.ReplyWithReviewedBy with
  | none => none
  | some should_reply_with_reviewed_by =>
    if should_reply_with_reviewed_by then
      match (reply_patchset_with_reviewed_by details "all" env.reply_env).1 with
      | Except.error e => some (Except.error e, details, reviewed_patchsets, [Event.replyAttempted])
      | Except.ok successful_indexes =>
        if successful_indexes.isEmpty then
          match details.toggle_action PatchsetAction.ReplyWithReviewedBy with
          | none => none
          | some details' =>
              some (Except.ok (), details', reviewed_patchsets, [Event.replyAttempted])
        else
          let reviewed' := hmInsert reviewed_patchsets
            details.representative_patch.message_id.href successful_indexes
          match env.save_reviewed_result with
          | Except.error e =>
              some (Except.error e, details, reviewed',
                    [Event.replyAttempted, Event.reviewedSaveAttempted])
          | Except.ok _ =>
            match details.toggle_action PatchsetAction.ReplyWithReviewedBy with
            | none => none
            | some details' =>
                some (Except.ok (), details', reviewed',
                      [Event.replyAttempted, Event.reviewedSaveAttempted])
    else
      some (Except.ok (), details, reviewed_patchsets, [])

/-- `App::consolidate_patchset_actions`, with persistence outcomes supplied
by `env`.  Returns the operation outcome, the application state after the
operation (also on error, matching the in-place mutations), and the trace of
steps taken; `none` models an `unwrap` panic (absent details sub-state or
absent action-flag key). -/
def consolidate_patchset_actions (app : App) (env : ConsolidateEnv) :
    Option (Except String Unit × App × List Event) :=
  match app.patchset_details_and_actions_state with
  | none => none
  | some details =>
    match hmGet details.patchset_actions PatchsetAction.Bookmark with
    | none => none
    | some should_bookmark_patchset =>
      let bookmarked_state :=
        if should_bookmark_patchset then
          app.bookmarked_patchsets_state.bookmark_selected_patch details.representative_patch
        else
          app.bookmarked_patchsets_state.unbookmark_selected_patch details.representative_patch
      let app₁ := { app with bookmarked_patchsets_state := bookmarked_state }
      match env.save_bookmarked_result with
      | Except.error e =>
          some (Except.error e, app₁, [Event.bookmarkApplied, Event.bookmarkSaveAttempted])
      | Except.ok _ =>
        match reply_step details app₁.reviewed_patchsets env with
        | none => none
        | some (outcome, details', reviewed', reply_trace) =>
            some (outcome,
                  { app₁ with
                    patchset_details_and_actions_state := some details'
                    reviewed_patchsets := reviewed' },
                  [Event.bookmarkApplied, Event.bookmarkSaveAttempted] ++ reply_trace)

/-- `struct Config` from `src/app/config.rs`. -/
structure Config where
  page_size : Nat
  patchsets_cache_dir : String
  bookmarked_patchsets_path : String
  mailing_lists_path : String
  reviewed_patchsets_path : String
  logs_path : String
  git_send_email_options : String
  cache_dir : String
  data_dir : String
  max_log_age : Nat
  deriving DecidableEq

/-- The environment variables read by the configuration resolver
(`None` = unset), plus `HOME`. -/
structure ConfigEnv where
  home : String
  patch_hub_config_path : Option String
  patch_hub_page_size : Option String
  patch_hub_cache_dir : Option String
  patch_hub_data_dir : Option String
  patch_hub_git_send_email_options : Option String

/-- `str::parse::<usize>` as used on `PATCH_HUB_PAGE_SIZE`: a non-empty
all-digit decimal string parses to its value, anything else fails
(overflow of the 64-bit range is not modelled; the claims stay far below
it). -/
def parse_usize (s : String) : Option Nat :=
  if s.data ≠ [] ∧ s.data.all Char.isDigit then
    some (s.data.foldl (fun n c => n * 10 + (c.toNat - '0'.toNat)) 0)
  else
    none

namespace Config

/-- `Config::default` (built-in defaults derived from `HOME`). -/
def default (env : ConfigEnv) : Config :=
  let cache_dir := env.home ++ "/.cache/patch_hub"
  let data_dir := env.home ++ "/.local/share/patch_hub"
  { page_size := 30
    patchsets_cache_dir := cache_dir ++ "/patchsets"
    bookmarked_patchsets_path := data_dir ++ "/bookmarked_patchsets.json"
    mailing_lists_path := data_dir ++ "/mailing_lists.json"
    reviewed_patchsets_path := data_dir ++ "/reviewed_patchsets.json"
    logs_path := data_dir ++ "/logs"
    git_send_email_options := "--dry-run --suppress-cc=all"
    cache_dir := cache_dir
    data_dir := data_dir
    max_log_age := 0 }

/-- `Config::set_cache_dir`. -/
def set_cache_dir (c : Config) (cache_dir : String) : Config :=
  { c with
    patchsets_cache_dir := cache_dir ++ "/patchsets"
    cache_dir := cache_dir }

/-- `Config::set_data_dir`. -/
def set_data_dir (c : Config) (data_dir : String) : Config :=
  { c with
    bookmarked_patchsets_path := data_dir ++ "/bookmarked_patchsets.json"
    mailing_lists_path := data_dir ++ "/mailing_lists.json"
    reviewed_patchsets_path := data_dir ++ "/reviewed_patchsets.json"
    logs_path := data_dir ++ "/logs"
    data_dir := data_dir }

/-- `Config::detect_patch_hub_config_file`.  `fs` maps a path to the
contents of the file at it (`none` = not a file); `parse` is the
`serde_json::from_str` oracle (`none` = parse error).  A set
`PATCH_HUB_CONFIG_PATH` whose file is missing or unparseable falls through
to the fixed default location, exactly as in the source. -/
def detect_patch_hub_config_file (env : ConfigEnv) (fs : String → Option String)
    (parse : String → Option Config) : Option Config :=
  let from_path : String → Option Config := fun config_path =>
    match fs config_path with
    | some file_contents => parse file_contents
    | none => none
  let from_default := from_path (env.home ++ "/.local/share/patch_hub/config.json")
  match env.patch_hub_config_path with
  | some config_path =>
      match from_path config_path with
      | some config => some config
      | none => from_default
  | none => from_default

/-- `Config::override_with_env_vars`; the `parse().unwrap()` panic on an
unparseable `PATCH_HUB_PAGE_SIZE` is modelled as `none`. -/
def override_with_env_vars (c : Config) (env : ConfigEnv) : Option Config :=
  let step₁ : Option Config :=
    match env.patch_hub_page_size with
    | some page_size =>
        match parse_usize page_size with
        | some n => some { c with page_size := n }
        | none => none
    | none => some c
  match step₁ with
  | none => none
  | some c =>
    let c :=
      match env.patch_hub_cache_dir with
      | some cache_dir => c.set_cache_dir cache_dir
      | none => c
    let c :=
      match env.patch_hub_data_dir with
      | some data_dir => c.set_data_dir data_dir
      | none => c
    let c :=
      match env.patch_hub_git_send_email_options with
      | some git_send_email_options => { c with git_send_email_options := git_send_email_options }
      | none => c
    some c

/-- `Config::build`. -/
def build (env : ConfigEnv) (fs : String → Option String)
    (parse : String → Option Config) : Option Config :=
  let config := Config.default env
  let config :=
    match detect_patch_hub_config_file env fs parse with
    | some config_from_file => config_from_file
    | none => config
  override_with_env_vars config env

end Config

/-- Filesystem operations performed by `Config::save_patch_hub_config`. -/
inductive FsOp where
  | create (path : String)
  | write (path : String) (contents : String)
  | rename (src : String) (dst : String)
  deriving DecidableEq

/-- A filesystem snapshot: path to file contents (`none` = no file). -/
def FS : Type := String → Option String

/-- Effect of one filesystem operation on a snapshot: `File::create`
truncates to empty, a write replaces the contents, `fs::rename` moves the
source over the destination. -/
def applyFsOp (fs : FS) : FsOp → FS
  | FsOp.create path => fun q => if q = path then some "" else fs q
  | FsOp.write path contents => fun q => if q = path then some contents else fs q
  | FsOp.rename src dst => fun q =>
      if q = dst then fs src else if q = src then none else fs q

/-- Effect of a sequence of filesystem operations, first to last. -/
def runFsOps (fs : FS) (ops : List FsOp) : FS :=
  ops.foldl applyFsOp fs

/-- The destination path resolved by `Config::save_patch_hub_config`:
`PATCH_HUB_CONFIG_PATH` if set, else the fixed default location. -/
def save_config_path (env : ConfigEnv) : String :=
  match env.patch_hub_config_path with
  | some path => path
  | none => env.home ++ "/.local/share/patch_hub/config.json"

/-- The ordered filesystem operations of `Config::save_patch_hub_config`:
create the sibling `.tmp` file, serialize the whole config into it
(`serialized` is the `serde_json::to_writer_pretty` output oracle), then
rename it over the destination. -/
def save_patch_hub_config_ops (env : ConfigEnv) (serialized : String) : List FsOp :=
  let config_path := save_config_path env
  let tmp_filename := config_path ++ ".tmp"
  [FsOp.create tmp_filename,
   FsOp.write tmp_filename serialized,
   FsOp.rename tmp_filename config_path]

/-- The cursor-moving operations of `LatestPatchsetsState`. -/
inductive LOp where
  | selectBelow
  | selectAbove
  | incrementPage
  | decrementPage
  deriving DecidableEq

/-- Apply one cursor-moving operation of `LatestPatchsetsState`. -/
def applyLOp (s : LatestPatchsetsState) : LOp → LatestPatchsetsState
  | LOp.selectBelow => s.select_below_patchset
  | LOp.selectAbove => s.select_above_patchset
  | LOp.incrementPage => s.increment_page
  | LOp.decrementPage => s.decrement_page

/-- Apply a sequence of cursor-moving operations of `LatestPatchsetsState`. -/
def applyLOps (s : LatestPatchsetsState) (ops : List LOp) : LatestPatchsetsState :=
  ops.foldl applyLOp s

/-- The cursor-moving operations of `BookmarkedPatchsetsState`. -/
inductive BOp where
  | selectBelow
  | selectAbove
  deriving DecidableEq

/-- Apply one cursor-moving operation of `BookmarkedPatchsetsState`. -/
def applyBOp (s : BookmarkedPatchsetsState) : BOp → BookmarkedPatchsetsState
  | BOp.selectBelow => s.select_below_patchset
  | BOp.selectAbove => s.select_above_patchset

/-- Apply a sequence of cursor-moving operations of `BookmarkedPatchsetsState`. -/
def applyBOps (s : BookmarkedPatchsetsState) (ops : List BOp) : BookmarkedPatchsetsState :=
  ops.foldl applyBOp s

/-- The cursor bound claimed by the spec for a bounded list:
`0 <= index < length`, or `index == 0` when the sequence is empty. -/
def LatestPatchsetsState.cursor_in_bounds (s : LatestPatchsetsState) : Prop :=
  s.patchset_index < s.representative_patches_ids.length ∨
    (s.representative_patches_ids.length = 0 ∧ s.patchset_index = 0)

/-- The cursor bound claimed by the spec for `BookmarkedPatchsetsState`. -/
def BookmarkedPatchsetsState.cursor_in_bounds (s : BookmarkedPatchsetsState) : Prop :=
  s.patchset_index < s.bookmarked_patchsets.length ∨
    (s.bookmarked_patchsets.length = 0 ∧ s.patchset_index = 0)

/-- The invariant `LatestPatchsetsState` actually maintains: the cursor
never exceeds the fetched-sequence length (it may equal it, right after a
page change onto a not-yet-fetched page), and the current page's window
starts within the fetched sequence.  It holds for
`LatestPatchsetsState::new` and is preserved by every operation. -/
def LatestPatchsetsState.cursor_consistent (s : LatestPatchsetsState) : Prop :=
  s.patchset_index ≤ s.representative_patches_ids.length ∧
    s.page_size * (s.page_number - 1) ≤ s.representative_patches_ids.length

/-- The reachable action-flags maps of a `PatchsetDetailsAndActionsState`:
built by `App::init_patchset_details_and_actions_state` and only ever
updated by `toggle_action` (reached from `toggle_bookmark_action`,
`toggle_reply_with_reviewed_by_action` and `consolidate_patchset_actions`);
no other code touches the map. -/
inductive ReachableActions : List (PatchsetAction × Bool) → Prop where
  | init (is_patchset_bookmarked : Bool) :
      ReachableActions (initial_patchset_actions is_patchset_bookmarked)
  | toggle (m m' : List (PatchsetAction × Bool)) (a : PatchsetAction) :
      ReachableActions m → toggle_action_flags m a = some m' → ReachableActions m'

theorem lookup_map_replace {α β : Type} [BEq α] [LawfulBEq α]
    (m : List (α × β)) (k k' : α) (v : β) (h : k' ≠ k) :
    List.lookup k' (m.map (fun p => if p.1 == k then (k, v) else p)) =
      List.lookup k' m := by
  induction m with
  | nil => rfl
  | cons hd tl ih =>
    obtain ⟨a, b⟩ := hd
    by_cases hk : a = k
    · have h1 : (a == k) = true := beq_iff_eq.mpr hk
      have h2 : (k' == k) = false := beq_eq_false_iff_ne.mpr h
      have h3 : (k' == a) = false := beq_eq_false_iff_ne.mpr (by rw [hk]; exact h)
      simp only [List.map_cons]
      rw [if_pos h1]
      simp [List.lookup, h2, h3, ih]
    · have h1 : (a == k) = false := beq_eq_false_iff_ne.mpr hk
      simp only [List.map_cons]
      rw [if_neg (by simp [h1])]
      by_cases hk' : k' = a
      · have h2 : (k' == a) = true := beq_iff_eq.mpr hk'
        simp [List.lookup, h2]
      · have h2 : (k' == a) = false := beq_eq_false_iff_ne.mpr hk'
        simp [List.lookup, h2, ih]

theorem lookup_map_replace_self {α β : Type} [BEq α] [LawfulBEq α]
    (m : List (α × β)) (k : α) (v : β) (h : m.any (fun p => p.1 == k) = true) :
    List.lookup k (m.map (fun p => if p.1 == k then (k, v) else p)) = some v := by
  induction m with
  | nil => simp at h
  | cons hd tl ih =>
    obtain ⟨a, b⟩ := hd
    by_cases hk : a = k
    · subst hk
      simp only [List.map_cons]
      rw [if_pos (beq_iff_eq.mpr rfl)]
      simp [List.lookup]
    · have h1 : (a == k) = false := beq_eq_false_iff_ne.mpr hk
      have htl : tl.any (fun p => p.1 == k) = true := by
        simpa [List.any_cons, h1] using h
      have h2 : (k == a) = false := beq_eq_false_iff_ne.mpr (fun hh => hk hh.symm)
      simp only [List.map_cons]
      rw [if_neg (by simp [h1])]
      simp [List.lookup, h2, ih htl]

theorem hmGet_hmInsert_self {α β : Type} [BEq α] [LawfulBEq α]
    (m : List (α × β)) (k : α) (v : β) :
    hmGet (hmInsert m k v) k = some v := by
  unfold hmGet hmInsert
  by_cases h : m.any (fun p => p.1 == k) = true
  · simp only [h, if_true]
    exact lookup_map_replace_self m k v h
  · simp only [h, if_false]
    simp [List.lookup]

theorem hmGet_hmInsert_ne {α β : Type} [BEq α] [LawfulBEq α]
    (m : List (α × β)) (k k' : α) (v : β) (h : k' ≠ k) :
    hmGet (hmInsert m k v) k' = hmGet m k' := by
  unfold hmGet hmInsert
  by_cases hany : m.any (fun p => p.1 == k) = true
  · simp only [hany, if_true]
    exact lookup_map_replace m k k' v h
  · simp only [hany, if_false]
    have : (k' == k) = false := beq_eq_false_iff_ne.mpr h
    simp [List.lookup, this]

theorem hmGet_hmInsert_isSome {α β : Type} [BEq α] [LawfulBEq α]
    (m : List (α × β)) (k k' : α) (v : β)
    (h : (hmGet m k').isSome) : (hmGet (hmInsert m k v) k').isSome := by
  by_cases hk : k' = k
  · subst hk
    rw [hmGet_hmInsert_self]
    rfl
  · rw [hmGet_hmInsert_ne m k k' v hk]
    exact h

/-- C5: the claim says `has_valid_target_list` returns `false` whenever
possible-matches is empty; the source instead compares the highlighted index
against the wrapped unsigned quantity `length - 1`, so on an empty
possible-matches list (highlighted index 0, its initial value) it returns
`true` — the claimed guard does not hold at this input. -/
theorem C5_has_valid_target_list_empty_is_true :
    has_valid_target_list ⟨[], "", [], 0, ""⟩ = true := by decide

/-- C10: `BookmarkedPatchsetsState::get_selected_patchset` (used by
`init_patchset_details_and_actions_state` with origin BookmarkedPatchsets)
returns the patch at the cursor under the hypothesis that the cursor is
within bounds, and on an empty bookmarked collection its `unwrap` panics
(modelled as `none`) instead of returning an error value. -/
theorem C10_get_selected_patchset_requires_nonempty :
    (∀ (s : BookmarkedPatchsetsState)
       (h : s.patchset_index < s.bookmarked_patchsets.length),
       s.get_selected_patchset
         = some (s.bookmarked_patchsets.get ⟨s.patchset_index, h⟩)) ∧
    (∀ s : BookmarkedPatchsetsState, s.bookmarked_patchsets = [] →
       s.get_selected_patchset = none) := by
  constructor
  · intro s h
    unfold BookmarkedPatchsetsState.get_selected_patchset
    exact List.get?_eq_get h
  · intro s h
    unfold BookmarkedPatchsetsState.get_selected_patchset
    rw [h]
    rfl

theorem C10_witness :
    BookmarkedPatchsetsState.get_selected_patchset ⟨[⟨⟨"m1"⟩⟩], 0⟩ = some ⟨⟨"m1"⟩⟩ ∧
    BookmarkedPatchsetsState.get_selected_patchset ⟨[], 0⟩ = none :=
  ⟨C10_get_selected_patchset_requires_nonempty.1 ⟨[⟨⟨"m1"⟩⟩], 0⟩ (by decide),
   C10_get_selected_patchset_requires_nonempty.2 ⟨[], 0⟩ rfl⟩

/-- C6: whenever the resolved local identity has an empty name or an empty
email, the reply workflow returns `Ok` with zero successful indexes and
takes no workflow step — no reply operation is prepared or executed. -/
theorem C6_reply_no_identity_returns_zero_successes :
    ∀ (s : PatchsetDetailsAndActionsState) (target_list : String) (env : ReplyEnv),
      env.git_user_name = "" ∨ env.git_user_email = "" →
      reply_patchset_with_reviewed_by s target_list env = (Except.ok [], []) := by
  intro s target_list env h
  unfold reply_patchset_with_reviewed_by
  rcases h with h | h <;> simp [h]

theorem C6_witness :
    reply_patchset_with_reviewed_by
        ⟨⟨⟨"m"⟩⟩, ["p0"], 0, 0, initial_patchset_actions false, CurrentScreen.PatchsetDetails⟩
        "all" ⟨"", "user@mail.com", Except.ok [true, true]⟩
      = (Except.ok [], []) :=
  C6_reply_no_identity_returns_zero_successes _ _ _ (Or.inl rfl)

/-- C3 counterexample: in the state with one fetched item, page size 1 and
page number 1, the first item of the next page (zero-based index
`page_size * page_number = 1`) does not exist in the fetched sequence, yet
`increment_page` is not a no-op — it moves to page 2.  The claimed "no-op
unless the first item of the next page already exists" is therefore false. -/
theorem C3_counterexample :
    ¬ ((⟨["p1"], "lk", 1, 0, 1⟩ : LatestPatchsetsState).page_size *
         (⟨["p1"], "lk", 1, 0, 1⟩ : LatestPatchsetsState).page_number <
       (⟨["p1"], "lk", 1, 0, 1⟩ : LatestPatchsetsState).representative_patches_ids.length) ∧
    LatestPatchsetsState.increment_page ⟨["p1"], "lk", 1, 0, 1⟩
      ≠ (⟨["p1"], "lk", 1, 0, 1⟩ : LatestPatchsetsState) := by decide

/-- C3 amended: `increment_page` is a no-op unless the fetched sequence
already holds at least `page_size * page_number` items (i.e. the current
page is completely filled — one fewer item than the claimed "first item of
the next page exists"); when it does increment, the page number becomes
`page_number + 1` and the cursor is reset to the new page's first index
`page_size * page_number`, which never exceeds the fetched-sequence
length (but can equal it). -/
theorem C3_increment_page_amended :
    ∀ s : LatestPatchsetsState,
      (s.representative_patches_ids.length < s.page_size * s.page_number →
        s.increment_page = s) ∧
      (s.page_size * s.page_number ≤ s.representative_patches_ids.length →
        (s.increment_page).page_number = s.page_number + 1 ∧
        (s.increment_page).patchset_index = s.page_size * s.page_number ∧
        (s.increment_page).patchset_index ≤ s.representative_patches_ids.length) := by
  intro s
  constructor
  · intro h
    unfold LatestPatchsetsState.increment_page
    simp only [if_pos h]
  · intro h
    unfold LatestPatchsetsState.increment_page
    rw [if_neg (Nat.not_lt.mpr h)]
    refine ⟨rfl, ?_, ?_⟩
    · simp
    · simpa using h

theorem C3_witness :
    (LatestPatchsetsState.increment_page ⟨["a", "b"], "lk", 1, 0, 2⟩).page_number = 2 ∧
    (LatestPatchsetsState.increment_page ⟨["a", "b"], "lk", 1, 0, 2⟩).patchset_index = 2 ∧
    (LatestPatchsetsState.increment_page ⟨["a", "b"], "lk", 1, 0, 2⟩).patchset_index ≤ 2 :=
  (C3_increment_page_amended ⟨["a", "b"], "lk", 1, 0, 2⟩).2 (by decide)

/-- C8: `save_patch_hub_config` writes the whole serialized config to the
sibling `.tmp` file and only then renames it over the destination: stopping
after any proper prefix of its filesystem operations (a crash at any point
before the rename) leaves the file at the destination path byte-identical
to its prior state — the destination is never written directly — while the
completed sequence leaves exactly the serialized config there. -/
theorem C8_save_config_crash_safe :
    ∀ (env : ConfigEnv) (fs : FS) (serialized : String) (k : Nat),
      k ≤ 2 →
      runFsOps fs ((save_patch_hub_config_ops env serialized).take k)
          (save_config_path env)
        = fs (save_config_path env) ∧
      runFsOps fs (save_patch_hub_config_ops env serialized) (save_config_path env)
        = some serialized := by
  intro env fs serialized k hk
  have hne : ¬ save_config_path env = save_config_path env ++ ".tmp" := by
    intro h
    have hlen := congrArg String.length h
    rw [String.length_append] at hlen
    have h4 : (".tmp" : String).length = 4 := rfl
    rw [h4] at hlen
    omega
  constructor
  · match k, hk with
    | 0, _ => rfl
    | 1, _ =>
        simp [save_patch_hub_config_ops, runFsOps, applyFsOp, hne]
    | 2, _ =>
        simp [save_patch_hub_config_ops, runFsOps, applyFsOp, hne]
  · simp [save_patch_hub_config_ops, runFsOps, applyFsOp, hne]

theorem C8_witness :
    runFsOps (fun p => if p = "/h/.local/share/patch_hub/config.json" then some "old" else none)
        ((save_patch_hub_config_ops ⟨"/h", none, none, none, none, none⟩ "new-config").take 2)
        (save_config_path ⟨"/h", none, none, none, none, none⟩)
      = (fun p => if p = "/h/.local/share/patch_hub/config.json" then some "old" else none)
          (save_config_path ⟨"/h", none, none, none, none, none⟩) ∧
    runFsOps (fun p => if p = "/h/.local/share/patch_hub/config.json" then some "old" else none)
        (save_patch_hub_config_ops ⟨"/h", none, none, none, none, none⟩ "new-config")
        (save_config_path ⟨"/h", none, none, none, none, none⟩)
      = some "new-config" :=
  C8_save_config_crash_safe ⟨"/h", none, none, none, none, none⟩ _ "new-config" 2
    (by decide)

/-- C7: with no config file present (neither at the `PATCH_HUB_CONFIG_PATH`
override path, when set, nor at the fixed default location) and only the
page-size environment override set (to the string "10"), `Config::build`
resolves to the built-in defaults derived from the home directory with only
`page_size` replaced by 10. -/
theorem C7_build_page_size_override_only :
    ∀ (env : ConfigEnv) (fs : String → Option String) (parse : String → Option Config),
      env.patch_hub_page_size = some "10" →
      env.patch_hub_cache_dir = none →
      env.patch_hub_data_dir = none →
      env.patch_hub_git_send_email_options = none →
      (∀ p, env.patch_hub_config_path = some p → fs p = none) →
      fs (env.home ++ "/.local/share/patch_hub/config.json") = none →
      Config.build env fs parse = some { Config.default env with page_size := 10 } := by
  intro env fs parse hpage hcache hdata hgit hover hdef
  have hdetect : Config.detect_patch_hub_config_file env fs parse = none := by
    unfold Config.detect_patch_hub_config_file
    cases hcp : env.patch_hub_config_path with
    | none => simp [hdef]
    | some p => simp [hover p hcp, hdef]
  have h10 : parse_usize "10" = some 10 := by decide
  unfold Config.build
  rw [hdetect]
  unfold Config.override_with_env_vars
  simp only [hpage, hcache, hdata, hgit, h10]

theorem C7_witness :
    Config.build ⟨"/home/user", none, some "10", none, none, none⟩
        (fun _ => none) (fun _ => none)
      = some { Config.default ⟨"/home/user", none, some "10", none, none, none⟩ with
               page_size := 10 } :=
  C7_build_page_size_override_only ⟨"/home/user", none, some "10", none, none, none⟩
    (fun _ => none) (fun _ => none) rfl rfl rfl rfl
    (fun _ h => Option.noConfusion h) rfl

theorem latest_step_preserves_cursor_consistent
    (s : LatestPatchsetsState) (op : LOp) (h : s.cursor_consistent) :
    (applyLOp s op).cursor_consistent := by
  obtain ⟨h₁, h₂⟩ := h
  cases op with
  | selectBelow =>
      show s.select_below_patchset.cursor_consistent
      unfold LatestPatchsetsState.select_below_patchset
      split
      · exact ⟨show s.patchset_index + 1 ≤ s.representative_patches_ids.length by omega, h₂⟩
      · exact ⟨h₁, h₂⟩
  | selectAbove =>
      show s.select_above_patchset.cursor_consistent
      unfold LatestPatchsetsState.select_above_patchset
      split
      · exact ⟨h₁, h₂⟩
      · split
        · exact ⟨show s.patchset_index - 1 ≤ s.representative_patches_ids.length by omega, h₂⟩
        · exact ⟨h₁, h₂⟩
  | incrementPage =>
      show s.increment_page.cursor_consistent
      simp only [LatestPatchsetsState.increment_page]
      split
      · exact ⟨h₁, h₂⟩
      · rename_i hle
        have hle' : s.page_size * s.page_number ≤ s.representative_patches_ids.length :=
          Nat.not_lt.mp hle
        exact ⟨show s.page_size * (s.page_number + 1 - 1) ≤
                 s.representative_patches_ids.length by simpa using hle',
               show s.page_size * (s.page_number + 1 - 1) ≤
                 s.representative_patches_ids.length by simpa using hle'⟩
  | decrementPage =>
      show s.decrement_page.cursor_consistent
      unfold LatestPatchsetsState.decrement_page
      split
      · exact ⟨h₁, h₂⟩
      · have hmul : s.page_size * (s.page_number - 1 - 1) ≤
            s.page_size * (s.page_number - 1) :=
          mul_le_mul_left' (Nat.sub_le _ _) _
        exact ⟨show s.page_size * (s.page_number - 1 - 1) ≤
                 s.representative_patches_ids.length from le_trans hmul h₂,
               show s.page_size * (s.page_number - 1 - 1) ≤
                 s.representative_patches_ids.length from le_trans hmul h₂⟩

theorem bookmarked_step_preserves_cursor_in_bounds
    (s : BookmarkedPatchsetsState) (op : BOp) (h : s.cursor_in_bounds) :
    (applyBOp s op).cursor_in_bounds := by
  cases op with
  | selectBelow =>
      show s.select_below_patchset.cursor_in_bounds
      unfold BookmarkedPatchsetsState.select_below_patchset
      split
      · rename_i hlt
        exact Or.inl (show s.patchset_index + 1 < s.bookmarked_patchsets.length from hlt)
      · exact h
  | selectAbove =>
      show s.select_above_patchset.cursor_in_bounds
      unfold BookmarkedPatchsetsState.select_above_patchset
      rcases h with h | ⟨h0, hi⟩
      · exact Or.inl (show s.patchset_index - 1 < s.bookmarked_patchsets.length by omega)
      · exact Or.inr ⟨h0, show s.patchset_index - 1 = 0 by omega⟩

/-- C4 counterexample: the state with two fetched items, page size 2,
page 1, cursor 0 satisfies the claimed bound `0 <= index < length`, but the
cursor-moving sequence `[incrementPage]` drives the cursor to 2 = length,
violating it (and the sequence is non-degenerate: it starts from a state
reachable by fetching exactly one full page).  The claimed invariant is
therefore not preserved by every sequence of cursor-moving operations. -/
theorem C4_counterexample :
    (⟨["a", "b"], "lk", 1, 0, 2⟩ : LatestPatchsetsState).cursor_in_bounds ∧
    ¬ (applyLOps ⟨["a", "b"], "lk", 1, 0, 2⟩ [LOp.incrementPage]).cursor_in_bounds := by
  unfold applyLOps LatestPatchsetsState.cursor_in_bounds
  decide

/-- C4 amended: the strict bound fails only at a page boundary.  What holds:
(1) for `LatestPatchsetsState`, every sequence of the four cursor-moving
operations preserves `cursor_consistent` — the cursor never exceeds the
fetched-sequence length (it may equal it, exactly when a page change lands
on a not-yet-fetched page), provided the starting state also satisfies the
page-window consistency `page_size * (page_number - 1) <= length`, which
holds for `new` and is preserved throughout; (2) for
`BookmarkedPatchsetsState`, the claimed bound `0 <= index < length`
(or `index == 0` when empty) is preserved by every sequence of its two
cursor-moving operations. -/
theorem C4_cursor_bounds_amended :
    (∀ (s : LatestPatchsetsState) (ops : List LOp),
       s.cursor_consistent → (applyLOps s ops).cursor_consistent) ∧
    (∀ (s : BookmarkedPatchsetsState) (ops : List BOp),
       s.cursor_in_bounds → (applyBOps s ops).cursor_in_bounds) := by
  constructor
  · intro s ops
    induction ops generalizing s with
    | nil => exact fun h => h
    | cons op rest ih =>
        intro h
        exact ih (applyLOp s op) (latest_step_preserves_cursor_consistent s op h)
  · intro s ops
    induction ops generalizing s with
    | nil => exact fun h => h
    | cons op rest ih =>
        intro h
        exact ih (applyBOp s op) (bookmarked_step_preserves_cursor_in_bounds s op h)

theorem C4_witness :
    (applyLOps ⟨["a", "b", "c"], "lk", 1, 0, 2⟩
       [LOp.selectBelow, LOp.incrementPage, LOp.decrementPage]).cursor_consistent ∧
    (applyBOps ⟨[⟨⟨"m1"⟩⟩, ⟨⟨"m2"⟩⟩], 0⟩
       [BOp.selectBelow, BOp.selectBelow, BOp.selectAbove]).cursor_in_bounds :=
  ⟨C4_cursor_bounds_amended.1 ⟨["a", "b", "c"], "lk", 1, 0, 2⟩ _
     (by unfold LatestPatchsetsState.cursor_consistent; exact ⟨by decide, by decide⟩),
   C4_cursor_bounds_amended.2 ⟨[⟨⟨"m1"⟩⟩, ⟨⟨"m2"⟩⟩], 0⟩ _
     (by unfold BookmarkedPatchsetsState.cursor_in_bounds; left; decide)⟩

/-- C9: every reachable action-flags map — initialized by
`init_patchset_details_and_actions_state` with exactly the two keys and only
ever updated through `toggle_action` — contains entries for both `Bookmark`
and `ReplyWithReviewedBy`, so the `get(..).unwrap()` lookups in
`toggle_action`, `actions_require_user_io` and `consolidate_patchset_actions`
never reach their failure branch. -/
theorem C9_action_flags_lookups_never_fail :
    ∀ m, ReachableActions m →
      (hmGet m PatchsetAction.Bookmark).isSome ∧
      (hmGet m PatchsetAction.ReplyWithReviewedBy).isSome := by
  intro m h
  induction h with
  | init is_patchset_bookmarked => exact ⟨rfl, rfl⟩
  | toggle m m' a hm htog ih =>
      unfold toggle_action_flags at htog
      cases hget : hmGet m a with
      | none => rw [hget] at htog; cases htog
      | some current_value =>
          rw [hget] at htog
          cases htog
          exact ⟨hmGet_hmInsert_isSome m a PatchsetAction.Bookmark _ ih.1,
                 hmGet_hmInsert_isSome m a PatchsetAction.ReplyWithReviewedBy _ ih.2⟩

theorem C9_witness :
    (hmGet (initial_patchset_actions true) PatchsetAction.Bookmark).isSome ∧
    (hmGet (initial_patchset_actions true) PatchsetAction.ReplyWithReviewedBy).isSome :=
  C9_action_flags_lookups_never_fail (initial_patchset_actions true)
    (ReachableActions.init true)


theorem reply_step_spec (details : PatchsetDetailsAndActionsState)
    (reviewed : List (String × List Nat)) (env : ConsolidateEnv) (r : Bool)
    (hr : hmGet details.patchset_actions PatchsetAction.ReplyWithReviewedBy = some r) :
    ∃ outcome details' reviewed' reply_trace,
      reply_step details reviewed env = some (outcome, details', reviewed', reply_trace) ∧
      Event.bookmarkApplied ∉ reply_trace ∧
      Event.bookmarkSaveAttempted ∉ reply_trace := by
  unfold reply_step
  rw [hr]
  cases r with
  | false =>
      exact ⟨Except.ok (), details, reviewed, [], rfl, by simp, by simp⟩
  | true =>
      dsimp only
      cases hrep : (reply_patchset_with_reviewed_by details "all" env.reply_env).1 with
      | error e =>
          exact ⟨Except.error e, details, reviewed, [Event.replyAttempted], rfl,
                 by decide, by decide⟩
      | ok si =>
          dsimp only
          cases hemp : si.isEmpty with
          | true =>
              unfold PatchsetDetailsAndActionsState.toggle_action toggle_action_flags
              rw [hr]
              exact ⟨Except.ok (), _, reviewed, [Event.replyAttempted], rfl,
                     by decide, by decide⟩
          | false =>
              cases hsv : env.save_reviewed_result with
              | error e =>
                  exact ⟨Except.error e, details, _,
                         [Event.replyAttempted, Event.reviewedSaveAttempted], rfl,
                         by decide, by decide⟩
              | ok u =>
                  unfold PatchsetDetailsAndActionsState.toggle_action toggle_action_flags
                  rw [hr]
                  exact ⟨Except.ok (), _, _,
                         [Event.replyAttempted, Event.reviewedSaveAttempted], rfl,
                         by decide, by decide⟩

/-- C1: for every details sub-state and every value of the two action flags,
`consolidate_patchset_actions` runs the bookmark step (applying the bookmark
flag, then persisting the full bookmarked collection) strictly before the
reply step, and if persisting the bookmarked collection fails the operation
returns that error and the reply step is never attempted (the reply part of
the trace is empty). -/
theorem C1_bookmark_step_before_reply_step :
    ∀ (app : App) (env : ConsolidateEnv) (details : PatchsetDetailsAndActionsState)
      (b r : Bool),
      app.patchset_details_and_actions_state = some details →
      hmGet details.patchset_actions PatchsetAction.Bookmark = some b →
      hmGet details.patchset_actions PatchsetAction.ReplyWithReviewedBy = some r →
      ∃ outcome app' reply_trace,
        consolidate_patchset_actions app env
          = some (outcome, app',
                  [Event.bookmarkApplied, Event.bookmarkSaveAttempted] ++ reply_trace) ∧
        Event.bookmarkApplied ∉ reply_trace ∧
        Event.bookmarkSaveAttempted ∉ reply_trace ∧
        (∀ e, env.save_bookmarked_result = Except.error e →
          outcome = Except.error e ∧ reply_trace = []) := by
  intro app env details b r happ hb hr
  unfold consolidate_patchset_actions
  rw [happ]
  dsimp only
  rw [hb]
  dsimp only
  cases hsv : env.save_bookmarked_result with
  | error e =>
      refine ⟨Except.error e, _, [], rfl, by simp, by simp, ?_⟩
      intro e' he'
      cases he'
      exact ⟨rfl, rfl⟩
  | ok u =>
      obtain ⟨outcome, details', reviewed', reply_trace, hrs, hnb₁, hnb₂⟩ :=
        reply_step_spec details app.reviewed_patchsets env r hr
      rw [hrs]
      dsimp only
      refine ⟨outcome, _, reply_trace, rfl, hnb₁, hnb₂, ?_⟩
      intro e' he'
      cases he'

theorem C1_witness :
    ∃ outcome app' reply_trace,
      consolidate_patchset_actions
          ⟨⟨[], 0⟩,
           some ⟨⟨⟨"mid"⟩⟩, ["p0"], 0, 0, initial_patchset_actions true,
                 CurrentScreen.PatchsetDetails⟩,
           []⟩
          ⟨Except.error "disk full", ⟨"User", "u@x", Except.ok []⟩, Except.ok ()⟩
        = some (outcome, app',
                [Event.bookmarkApplied, Event.bookmarkSaveAttempted] ++ reply_trace) ∧
      Event.bookmarkApplied ∉ reply_trace ∧
      Event.bookmarkSaveAttempted ∉ reply_trace ∧
      (∀ e, (Except.error "disk full" : Except String Unit) = Except.error e →
        outcome = Except.error e ∧ reply_trace = []) :=
  C1_bookmark_step_before_reply_step _ _ _ true false rfl rfl rfl

/-- C2: when consolidation runs with the reply flag true, the bookmark
persistence succeeding, and the reply workflow returning the successful
indexes `si`, the result is success, the flag is set back to false
regardless of how many (including zero) operations succeeded, and whenever
`si` is non-empty those indexes are stored in the reviewed-patchsets map
under the series' message identifier and the full map is persisted. -/
theorem C2_reply_merges_indexes_and_clears_flag :
    ∀ (app : App) (env : ConsolidateEnv) (details : PatchsetDetailsAndActionsState)
      (b : Bool) (si : List Nat),
      app.patchset_details_and_actions_state = some details →
      hmGet details.patchset_actions PatchsetAction.Bookmark = some b →
      hmGet details.patchset_actions PatchsetAction.ReplyWithReviewedBy = some true →
      env.save_bookmarked_result = Except.ok () →
      (reply_patchset_with_reviewed_by details "all" env.reply_env).1 = Except.ok si →
      env.save_reviewed_result = Except.ok () →
      ∃ app' trace details',
        consolidate_patchset_actions app env = some (Except.ok (), app', trace) ∧
        app'.patchset_details_and_actions_state = some details' ∧
        hmGet details'.patchset_actions PatchsetAction.ReplyWithReviewedBy = some false ∧
        (si ≠ [] →
          hmGet app'.reviewed_patchsets details.representative_patch.message_id.href
            = some si ∧
          Event.reviewedSaveAttempted ∈ trace) := by
  intro app env details b si happ hb hr hsv₁ hrep hsv₂
  unfold consolidate_patchset_actions
  rw [happ]
  dsimp only
  rw [hb]
  dsimp only
  rw [hsv₁]
  dsimp only
  unfold reply_step
  rw [hr]
  dsimp only
  rw [hrep]
  dsimp only
  cases hsi : si.isEmpty with
  | true =>
      unfold PatchsetDetailsAndActionsState.toggle_action toggle_action_flags
      rw [hr]
      dsimp only
      refine ⟨_, _, _, rfl, rfl, hmGet_hmInsert_self _ _ _, ?_⟩
      intro hne
      exact absurd (List.isEmpty_iff.mp hsi) hne
  | false =>
      rw [hsv₂]
      dsimp only
      unfold PatchsetDetailsAndActionsState.toggle_action toggle_action_flags
      rw [hr]
      dsimp only
      refine ⟨_, _, _, rfl, rfl, hmGet_hmInsert_self _ _ _, ?_⟩
      intro hne
      exact ⟨hmGet_hmInsert_self _ _ _, by decide⟩

theorem C2_witness :
    ∃ app' trace details',
      consolidate_patchset_actions
          ⟨⟨[], 0⟩,
           some ⟨⟨⟨"series-mid"⟩⟩, ["p0", "p1", "p2"], 0, 0,
                 [(PatchsetAction.Bookmark, false),
                  (PatchsetAction.ReplyWithReviewedBy, true)],
                 CurrentScreen.PatchsetDetails⟩,
           []⟩
          ⟨Except.ok (), ⟨"User", "user@mail.com", Except.ok [true, false, true]⟩,
           Except.ok ()⟩
        = some (Except.ok (), app', trace) ∧
      app'.patchset_details_and_actions_state = some details' ∧
      hmGet details'.patchset_actions PatchsetAction.ReplyWithReviewedBy = some false ∧
      (([0, 2] : List Nat) ≠ [] →
        hmGet app'.reviewed_patchsets "series-mid" = some [0, 2] ∧
        Event.reviewedSaveAttempted ∈ trace) :=
  C2_reply_merges_indexes_and_clears_flag
    ⟨⟨[], 0⟩,
     some ⟨⟨⟨"series-mid"⟩⟩, ["p0", "p1", "p2"], 0, 0,
           [(PatchsetAction.Bookmark, false),
            (PatchsetAction.ReplyWithReviewedBy, true)],
           CurrentScreen.PatchsetDetails⟩,
     []⟩
    ⟨Except.ok (), ⟨"User", "user@mail.com", Except.ok [true, false, true]⟩,
     Except.ok ()⟩
    ⟨⟨⟨"series-mid"⟩⟩, ["p0", "p1", "p2"], 0, 0,
     [(PatchsetAction.Bookmark, false),
      (PatchsetAction.ReplyWithReviewedBy, true)],
     CurrentScreen.PatchsetDetails⟩
    false [0, 2] rfl rfl rfl rfl rfl rfl
